import Mathlib

/-!
Verification development for the freenet-kore repository.

The HTTP path handlers (crates/core/src/server/path_handlers.rs) and the
in-memory node (crates/freenet2-node/src/node/in_memory.rs) are embedded
shallowly: filesystem access, channel sends/receives and external parsers
appear as explicit parameters, a Rust panic is a distinguished outcome, and
filesystem paths are lists of path segments.
-/

namespace Freenet

/-- Parsed contract key, as produced by ContractKey::from_id; only its
encoded contract id is observable to the handlers. -/
structure ContractKey where
  id : String

/-- Source method ContractKey::encoded_contract_id. -/
def ContractKey.encoded_contract_id (k : ContractKey) : String := k.id

/-- Contract container returned in a GetResponse; the handlers only read
its key. -/
structure ContractContainer where
  key : ContractKey

/-- Error type of the web-server handlers (server/errors.rs variants as
used by path_handlers.rs). -/
inductive WebSocketApiError where
  | invalidParam (error_cause : String)
  | nodeError (error_cause : String)
  | missingContract (key : ContractKey)
  | axumError (error : String)

/-- Error reported by the host for a client request; the handler forwards
its kind. -/
structure ClientError where
  kind : String

/-- Contract-level host responses, as matched by contract_home. -/
inductive ContractResponse where
  | getResponse (contract : Option ContractContainer) (state : List Nat)

/-- Host responses delivered to a client callback channel. -/
inductive HostResponse where
  | contractResponse (resp : ContractResponse)
  | okResponse

/-- Modelled from the spec: results delivered on the per-client callback
channel of the client API collaborator; the variants NewId and Result are
the ones contract_home consumes, each Result carrying the client id and a
host result. -/
inductive HostCallbackResult where
  | newId (id : Nat)
  | result (id : Nat) (result : Except ClientError HostResponse)

/-- Requests contract_home sends to the node over the gateway channel, in
program order. -/
inductive ClientMsg where
  | newConnection
  | getRequest (key : ContractKey)
  | disconnect

/-- Outcome of running a handler: a success response, a typed error
returned to the caller, or a Rust panic. -/
inductive Outcome (e a : Type) where
  | ok (value : a)
  | err (error : e)
  | panicked (msg : String)

/-- HTTP responses produced by the handlers: an inline HTML body or a file
served from disk. -/
inductive Response where
  | html (body : String)
  | served (path : List String)

/-- The channel environment of one contract_home run: results of the three
sends, in program order, and the first two received callbacks. -/
structure NodeChannel where
  send1 : Except String Unit
  send2 : Except String Unit
  send3 : Except String Unit
  recv1 : Option HostCallbackResult
  recv2 : Option HostCallbackResult

/-- Opaque unpacked web application (app_packaging::WebApp), observable
only through the WebEnv operations. -/
structure WebApp where
  data : List Nat

/-- Filesystem and packaging environment of the web handlers: the OS temp
directory, file contents by path, utf-8 decoding, and the WebApp
operations try_from, unpack and get_file from app_packaging. -/
structure WebEnv where
  temp_dir : List String
  fs : List String → Option (List Nat)
  utf8 : List Nat → Option String
  webAppOf : List Nat → Except String WebApp
  unpackOf : WebApp → List String → Except String Unit
  indexOf : WebApp → Except String (List Nat)

/-- Source function contract_web_path: temp_dir/freenet/webs/(encoded
contract id)/web, with paths as segment lists. -/
def contract_web_path (temp_dir : List String) (key : ContractKey) : List String :=
  temp_dir ++ ["freenet", "webs", key.encoded_contract_id, "web"]

/-- The path get_web_body reads: its argument path joined with web and
index.html. -/
def web_body_path (path : List String) : List String :=
  path ++ ["web", "index.html"]

/-- Source function get_web_body: open and read path/web/index.html and
decode it as utf-8, any failure becoming a NodeError. -/
def get_web_body (env : WebEnv) (path : List String) : Except WebSocketApiError String :=
  match env.fs (web_body_path path) with
  | none => .error (.nodeError "could not open or read index file")
  | some buf =>
    match env.utf8 buf with
    | none => .error (.nodeError "invalid utf-8 in web body")
    | some body => .ok body

/-- Source function contract_home, with each fallible call made explicit.
Every send result that the source unwraps after map_err becomes a panic
outcome on failure, as does the catch-all unreachable arm of the response
match and the unwraps in the WebApp fallback path. The second component
records which requests were sent on the gateway channel. -/
def contract_home (env : WebEnv) (ch : NodeChannel)
    (keyRes : Except String ContractKey) :
    Outcome WebSocketApiError Response × List ClientMsg :=
  match keyRes with
  | .error e => (.panicked ("called unwrap on Err: invalid contract key: " ++ e), [])
  | .ok key =>
    match ch.send1 with
    | .error e => (.panicked ("called unwrap on Err: node error: " ++ e), [.newConnection])
    | .ok _ =>
      match ch.recv1 with
      | some (.newId _) =>
        match ch.send2 with
        | .error e =>
          (.panicked ("called unwrap on Err: node error: " ++ e),
            [.newConnection, .getRequest key])
        | .ok _ =>
          match ch.recv2 with
          | some (.result _ (.ok (.contractResponse (.getResponse contract state)))) =>
            match contract with
            | some c =>
              let path := contract_web_path env.temp_dir c.key
              match get_web_body env path with
              | .ok body =>
                match ch.send3 with
                | .error e =>
                  (.panicked ("called unwrap on Err: node error: " ++ e),
                    [.newConnection, .getRequest key, .disconnect])
                | .ok _ =>
                  (.ok (.html body), [.newConnection, .getRequest key, .disconnect])
              | .error (.nodeError _) =>
                match env.webAppOf state with
                | .error _ =>
                  (.panicked "called unwrap on Err: failed unpacking contract",
                    [.newConnection, .getRequest key])
                | .ok web =>
                  match env.unpackOf web path with
                  | .error _ =>
                    (.panicked "called unwrap on Err: failed unpacking contract",
                      [.newConnection, .getRequest key])
                  | .ok _ =>
                    match env.indexOf web with
                    | .error _ =>
                      (.panicked "called unwrap on Err: failed unpacking contract",
                        [.newConnection, .getRequest key])
                    | .ok bytes =>
                      match env.utf8 bytes with
                      | none =>
                        (.err (.nodeError "invalid utf-8 in unpacked index.html"),
                          [.newConnection, .getRequest key])
                      | some body =>
                        match ch.send3 with
                        | .error e =>
                          (.panicked ("called unwrap on Err: node error: " ++ e),
                            [.newConnection, .getRequest key, .disconnect])
                        | .ok _ =>
                          (.ok (.html body),
                            [.newConnection, .getRequest key, .disconnect])
              | .error other =>
                (.err other, [.newConnection, .getRequest key])
            | none =>
              (.err (.missingContract key), [.newConnection, .getRequest key])
          | some (.result _ (.error e)) =>
            (.err (.axumError e.kind), [.newConnection, .getRequest key])
          | none =>
            (.err (.nodeError ("Contract not found: " ++ key.id)),
              [.newConnection, .getRequest key])
          | some _ =>
            (.panicked "entered unreachable code: received unexpected node response",
              [.newConnection, .getRequest key])
      | _ =>
        (.err (.nodeError "could not register new client in the node"), [.newConnection])

/-- Source function variable_content: the served path is computed purely
from the key and the request path; the key parse, the uri parse, the file
path extraction (v1::get_file_path, abstracted) and the file serve are the
only fallible steps, each propagated as a typed error. The Rust function
takes no node channel, and neither does this embedding. -/
def variable_content (temp_dir : List String)
    (keyRes : Except String ContractKey)
    (uriRes : Except String String)
    (filePathOf : String → Except WebSocketApiError String)
    (serve : List String → Except String Response) :
    Except WebSocketApiError Response :=
  match keyRes with
  | .error err => .error (.invalidParam err)
  | .ok key =>
    let base_path := contract_web_path temp_dir key
    match uriRes with
    | .error err => .error (.nodeError err)
    | .ok uri =>
      match filePathOf uri with
      | .error e => .error e
      | .ok fp =>
        match serve (base_path ++ [fp]) with
        | .error err => .error (.nodeError err)
        | .ok resp => .ok resp

/-- C1: the claim says that for every key string rejected by
ContractKey::from_id both contract_home and variable_content return an
InvalidParam error rather than panicking. The code refutes the
contract_home half: the parse result is mapped to InvalidParam and then
unwrapped, so contract_home panics on every rejected key (before sending
anything), while variable_content does return InvalidParam as claimed.
This theorem evaluates both handlers at a rejected key. -/
theorem contract_home_panics_on_invalid_key :
    ∀ (env : WebEnv) (ch : NodeChannel) (temp_dir : List String)
      (uriRes : Except String String)
      (filePathOf : String → Except WebSocketApiError String)
      (serve : List String → Except String Response) (e : String),
      contract_home env ch (.error e)
        = (.panicked ("called unwrap on Err: invalid contract key: " ++ e), []) ∧
      variable_content temp_dir (.error e) uriRes filePathOf serve
        = .error (.invalidParam e) := by
  intro env ch t u f s e
  exact ⟨rfl, rfl⟩

/-- C3: the claim says no silently-unreachable catch-all branch can be
executed in the response match of contract_home. The code refutes it: the
match on the second received callback ends in a catch-all that panics via
unreachable, and a duplicate NewId callback (a value of the callback type)
reaches exactly that arm. -/
theorem contract_home_unreachable_arm_executes :
    ∀ (env : WebEnv) (s3 : Except String Unit) (key : ContractKey) (n m : Nat),
      contract_home env ⟨.ok (), .ok (), s3, some (.newId n), some (.newId m)⟩ (.ok key)
        = (.panicked "entered unreachable code: received unexpected node response",
            [.newConnection, .getRequest key]) := by
  intro env s3 key n m
  rfl

/-- C8: contract_web_path is a pure function of the key and the temp
directory and returns temp_dir/freenet/webs/(encoded contract
id)/web; get_web_body appends web/index.html to its argument, so the path
it reads for a contract key holds two consecutive web segments. -/
theorem web_body_double_web_segment :
    ∀ (temp_dir : List String) (key : ContractKey),
      contract_web_path temp_dir key
        = temp_dir ++ ["freenet", "webs", key.encoded_contract_id, "web"] ∧
      web_body_path (contract_web_path temp_dir key)
        = temp_dir
            ++ ["freenet", "webs", key.encoded_contract_id, "web", "web", "index.html"] := by
  intro t k
  refine ⟨rfl, ?_⟩
  simp [contract_web_path, web_body_path]

/-- C9: variable_content resolves everything from its arguments (its
signature has no node channel): an invalid key yields InvalidParam
carrying the parse-error message, an unparsable request path yields
NodeError, and a file-serve failure yields NodeError, in each case with no
file served. -/
theorem variable_content_error_cases :
    ∀ (temp_dir : List String) (e : String) (uriRes : Except String String)
      (filePathOf : String → Except WebSocketApiError String)
      (serve : List String → Except String Response)
      (key : ContractKey) (uri fp : String),
      variable_content temp_dir (.error e) uriRes filePathOf serve
        = .error (.invalidParam e) ∧
      variable_content temp_dir (.ok key) (.error e) filePathOf serve
        = .error (.nodeError e) ∧
      variable_content temp_dir (.ok key) (.ok uri)
          (fun _ => .ok fp) (fun _ => .error e)
        = .error (.nodeError e) := by
  intro t e u f s key uri fp
  exact ⟨rfl, rfl, rfl⟩

/-- C10: contract_home returns an error, never a success response, when
the first callback is not a NewId (NodeError; covered exhaustively by the
closed-channel and Result cases), when the GET response carries no
contract (MissingContract for the requested key), when the host result is
an error (AxumError with that error kind), and when the channel closes
with no result (NodeError); in the no-contract and closed-channel cases
the recorded sends end at the Get request, so no Disconnect is sent. -/
theorem contract_home_error_cases :
    ∀ (env : WebEnv) (ch2 ch3 : Except String Unit) (r2 : Option HostCallbackResult)
      (key : ContractKey) (n i : Nat) (state : List Nat) (cerr : ClientError),
      contract_home env ⟨.ok (), ch2, ch3, none, r2⟩ (.ok key)
        = (.err (.nodeError "could not register new client in the node"),
            [.newConnection]) ∧
      (∀ res, contract_home env ⟨.ok (), ch2, ch3, some (.result i res), r2⟩ (.ok key)
        = (.err (.nodeError "could not register new client in the node"),
            [.newConnection])) ∧
      contract_home env ⟨.ok (), .ok (), ch3, some (.newId n),
          some (.result i (.ok (.contractResponse (.getResponse none state))))⟩ (.ok key)
        = (.err (.missingContract key), [.newConnection, .getRequest key]) ∧
      contract_home env ⟨.ok (), .ok (), ch3, some (.newId n),
          some (.result i (.error cerr))⟩ (.ok key)
        = (.err (.axumError cerr.kind), [.newConnection, .getRequest key]) ∧
      contract_home env ⟨.ok (), .ok (), ch3, some (.newId n), none⟩ (.ok key)
        = (.err (.nodeError ("Contract not found: " ++ key.id)),
            [.newConnection, .getRequest key]) := by
  intro env ch2 ch3 r2 key n i state cerr
  exact ⟨rfl, fun res => rfl, rfl, rfl, rfl⟩

/-- Peer identifier; cryptographic key derivation is abstracted to the
identifier itself. -/
abbrev PeerKey := Nat

/-- Modelled from the spec: the OperationState of section 3, a tagged
variant abstracted to its payload, since node/op_state.rs is not in the
sources. -/
structure OpState where
  data : Nat

/-- State errors of the spec taxonomy (section 7). -/
inductive StateError where
  | alreadyExists
  | notFound

/-- Modelled from the spec: the OperationStateStore of section 4.4, a
store of active transactions keyed by transaction id, since
node/op_state.rs is not in the sources. -/
structure OpStateStorage where
  txs : List (Nat × OpState)

/-- Source call OpStateStorage::new. -/
def OpStateStorage.new : OpStateStorage := ⟨[]⟩

/-- Membership of a transaction id in the store. -/
def OpStateStorage.contains (s : OpStateStorage) (id : Nat) : Bool :=
  s.txs.any fun p => p.1 = id

/-- Modelled from the spec: OperationStateStore.create of section 4.4,
failing with AlreadyExists on a reused transaction id and registering the
transaction otherwise. -/
def OpStateStorage.create (s : OpStateStorage) (id : Nat) (st : OpState) :
    Except StateError OpStateStorage :=
  if s.contains id then .error .alreadyExists else .ok ⟨(id, st) :: s.txs⟩

/-- Connection manager of the in-memory node; its construction arguments
are recorded, its behaviour is irrelevant to build and listen_on. -/
structure MemoryConnManager where
  host : Bool
  peer : PeerKey
  remote : Option PeerKey

/-- Source call MemoryConnManager::new. -/
def MemoryConnManager.new (host : Bool) (peer : PeerKey) (remote : Option PeerKey) :
    MemoryConnManager :=
  ⟨host, peer, remote⟩

/-- Node configuration, with the fields InMemory::build reads; addresses
and remote gateway entries are abstracted to strings and peer keys. -/
structure NodeConfig where
  local_ip : Option String
  local_port : Option Nat
  remote_nodes : List PeerKey
  local_key : PeerKey

/-- The in-memory node (struct InMemory of node/in_memory.rs). -/
structure InMemory where
  peer : PeerKey
  listening : Bool
  conn_manager : MemoryConnManager
  tx_storage : OpStateStorage

/-- The error message InMemory::build returns. -/
def gatewayRequiredMsg : String :=
  "At least one remote gateway is required to join an existing network for non-gateway nodes."

/-- Source function InMemory::build: reject a config with an incomplete
local address and no remote gateways before constructing anything, else
construct the node with a fresh connection manager and transaction store,
listening. -/
def InMemory.build (config : NodeConfig) : Except String InMemory :=
  if (config.local_ip.isNone || config.local_port.isNone) && config.remote_nodes.isEmpty then
    .error gatewayRequiredMsg
  else
    let peer := config.local_key
    .ok ⟨peer, true, MemoryConnManager.new true peer none, OpStateStorage.new⟩

/-- Fuelled image of the source loop with empty body and no break: it
consumes all fuel and never produces a value. -/
def loopForever : Nat → Option Unit
  | 0 => none
  | n + 1 => loopForever n

/-- Source function InMemory::listen_on: error when not listening,
otherwise enter the loop; the trailing Ok is reached only if the loop ever
exits. none is the outcome of running out of fuel inside the loop. -/
def InMemory.listen_on (node : InMemory) (fuel : Nat) : Option (Except Unit Unit) :=
  if node.listening = false then some (.error ())
  else
    match loopForever fuel with
    | none => none
    | some _ => some (.ok ())

theorem loopForever_eq_none : ∀ n, loopForever n = none := by
  intro n
  induction n with
  | zero => rfl
  | succ k ih => exact ih

/-- C2: the claim says listen_on awaits work or a shutdown signal and
returns Ok on shutdown for every successfully built node. The code
refutes it: every successfully built node has listening set, and listen_on
then enters a loop with an empty body and no exit, so for every amount of
fuel it returns nothing at all, in particular never Ok. -/
theorem listen_on_never_returns :
    ∀ (config : NodeConfig) (node : InMemory) (fuel : Nat),
      InMemory.build config = .ok node → node.listen_on fuel = none := by
  intro config node fuel h
  unfold InMemory.build at h
  split at h
  · exact absurd h (by simp)
  · injection h with h2
    subst h2
    simp [InMemory.listen_on, loopForever_eq_none]

/-- Witness for C2 at a concrete, successfully built node. -/
theorem listen_on_never_returns_witness :
    InMemory.listen_on ⟨7, true, MemoryConnManager.new true 7 none, OpStateStorage.new⟩ 5
      = none :=
  listen_on_never_returns ⟨some "127.0.0.1", some 50000, [], 7⟩
    ⟨7, true, MemoryConnManager.new true 7 none, OpStateStorage.new⟩ 5 rfl

/-- C4: building fails with the gateway-required error exactly when the
local address is incomplete (ip or port missing) and the remote gateway
list is empty, the error branch returning before any connection manager
or transaction store is constructed; every other configuration builds a
node that is listening, with a fresh connection manager and empty
transaction store. The four cases cover all configurations. -/
theorem build_requires_address_or_gateway :
    (∀ (port : Option Nat) (key : PeerKey),
      InMemory.build ⟨none, port, [], key⟩ = .error gatewayRequiredMsg) ∧
    (∀ (ip : Option String) (key : PeerKey),
      InMemory.build ⟨ip, none, [], key⟩ = .error gatewayRequiredMsg) ∧
    (∀ (a : String) (b : Nat) (rs : List PeerKey) (key : PeerKey),
      InMemory.build ⟨some a, some b, rs, key⟩
        = .ok ⟨key, true, MemoryConnManager.new true key none, OpStateStorage.new⟩) ∧
    (∀ (ip : Option String) (port : Option Nat) (r : PeerKey) (rs : List PeerKey)
      (key : PeerKey),
      InMemory.build ⟨ip, port, r :: rs, key⟩
        = .ok ⟨key, true, MemoryConnManager.new true key none, OpStateStorage.new⟩) := by
  refine ⟨fun port key => rfl, fun ip key => ?_, fun a b rs key => rfl, ?_⟩
  · cases ip <;> rfl
  · intro ip port r rs key
    cases ip <;> cases port <;> rfl

/-- Modelled from the spec: the RingTopology distance of section 4.2 over
the identifier space, instantiated with the XOR metric the spec names,
since no RingTopology source is present. -/
def RingTopology.distance (a b : Nat) : Nat := a ^^^ b

/-- C5: the ring distance metric is symmetric, zero on the diagonal, and
zero only on the diagonal; it is a total function of its two arguments. -/
theorem ring_distance_metric :
    ∀ a b : Nat,
      RingTopology.distance a b = RingTopology.distance b a ∧
      RingTopology.distance a a = 0 ∧
      (RingTopology.distance a b = 0 ↔ a = b) := by
  intro a b
  exact ⟨Nat.xor_comm a b, Nat.xor_self a, Nat.xor_eq_zero⟩

/-- Witness for C5 at concrete identifiers. -/
theorem ring_distance_metric_witness :
    RingTopology.distance 3 5 = RingTopology.distance 5 3 ∧
    RingTopology.distance 3 3 = 0 ∧
    (RingTopology.distance 3 5 = 0 ↔ 3 = 5) :=
  ring_distance_metric 3 5

/-- C6: creating a transaction whose id is already present fails with
AlreadyExists and produces no new store (the input store, being a pure
value, is unchanged); creating with a fresh id succeeds and the new store
holds the new transaction in front of the previous ones. -/
theorem op_state_create_spec :
    ∀ (s : OpStateStorage) (id : Nat) (st : OpState),
      (s.create id st = .error .alreadyExists ↔ s.contains id = true) ∧
      (s.contains id = false → s.create id st = .ok ⟨(id, st) :: s.txs⟩) := by
  intro s id st
  constructor
  · constructor
    · intro h
      by_contra hc
      have hcf : s.contains id = false := by
        cases hx : s.contains id
        · rfl
        · exact absurd hx hc
      unfold OpStateStorage.create at h
      rw [hcf] at h
      simp at h
    · intro h
      unfold OpStateStorage.create
      rw [h]
      simp
  · intro h
    unfold OpStateStorage.create
    rw [h]
    simp

/-- Witness for C6: a reused id is rejected, a fresh id is registered. -/
theorem op_state_create_spec_witness :
    (OpStateStorage.mk [(1, ⟨0⟩)]).create 1 ⟨5⟩ = .error .alreadyExists ∧
    (OpStateStorage.mk [(1, ⟨0⟩)]).create 2 ⟨5⟩ = .ok ⟨[(2, ⟨5⟩), (1, ⟨0⟩)]⟩ :=
  ⟨(op_state_create_spec ⟨[(1, ⟨0⟩)]⟩ 1 ⟨5⟩).1.mpr (by decide),
    (op_state_create_spec ⟨[(1, ⟨0⟩)]⟩ 2 ⟨5⟩).2 (by decide)⟩

/-- Transaction status as the retry scheduler sees it. -/
inductive TxStatus where
  | inFlight
  | failed
deriving DecidableEq

/-- A transaction under the retry scheduler: its retry count and status. -/
structure RetryTx where
  retry_count : Nat
  status : TxStatus
deriving DecidableEq

/-- Modelled from the spec: one RetryScheduler sweep of section 4.6 over a
transaction whose every send fails: re-issue increments the retry count
and the transaction fails once the count exceeds the configured maximum;
no RetryScheduler source is present. -/
def sweepStep (max_retries : Nat) (tx : RetryTx) : RetryTx :=
  match tx.status with
  | .inFlight =>
    let c := tx.retry_count + 1
    ⟨c, if max_retries < c then .failed else .inFlight⟩
  | .failed => tx

/-- n sweeps of the retry scheduler. -/
def sweeps (max_retries : Nat) : Nat → RetryTx → RetryTx
  | 0, tx => tx
  | n + 1, tx => sweepStep max_retries (sweeps max_retries n tx)

/-- A freshly created in-flight transaction. -/
def initialTx : RetryTx := ⟨0, .inFlight⟩

theorem sweeps_closed_form (m n : Nat) :
    sweeps m n initialTx = if n ≤ m then ⟨n, .inFlight⟩ else ⟨m + 1, .failed⟩ := by
  induction n with
  | zero => simp [sweeps, initialTx]
  | succ k ih =>
    rw [sweeps, ih]
    by_cases hk : k ≤ m
    · rw [if_pos hk]
      by_cases hk1 : k + 1 ≤ m
      · rw [if_pos hk1]
        simp [sweepStep, Nat.not_lt.mpr hk1]
      · rw [if_neg hk1]
        have hkm : k = m := by omega
        simp [sweepStep, hkm]
    · rw [if_neg hk, if_neg (by omega)]
      rfl

/-- C7: with every send failing, the retry count after n sweeps is exactly
n while the maximum is not yet exceeded (so it increments by exactly one
per sweep), the transaction is Failed with count max+1 right after the
sweep that first exceeds the maximum, and it is never Failed with a count
at or below the maximum. -/
theorem retry_fails_exactly_after_max :
    ∀ m : Nat,
      (∀ n, n ≤ m → sweeps m n initialTx = ⟨n, .inFlight⟩) ∧
      (∀ n, n ≤ m →
        (sweeps m (n + 1) initialTx).retry_count
          = (sweeps m n initialTx).retry_count + 1) ∧
      sweeps m (m + 1) initialTx = ⟨m + 1, .failed⟩ ∧
      (∀ n, (sweeps m n initialTx).status = .failed →
        m < (sweeps m n initialTx).retry_count) := by
  intro m
  refine ⟨fun n hn => ?_, fun n hn => ?_, ?_, fun n hs => ?_⟩
  · rw [sweeps_closed_form, if_pos hn]
  · rw [sweeps_closed_form, sweeps_closed_form, if_pos hn]
    by_cases h1 : n + 1 ≤ m
    · rw [if_pos h1]
    · rw [if_neg h1]
      have : n = m := by omega
      simp [this]
  · rw [sweeps_closed_form, if_neg (by omega)]
  · rw [sweeps_closed_form] at hs ⊢
    by_cases hn : n ≤ m
    · rw [if_pos hn] at hs
      exact absurd hs (by simp)
    · rw [if_neg hn]
      simp

/-- Witness for C7 with maximum retry count 2. -/
theorem retry_fails_exactly_after_max_witness :
    sweeps 2 1 initialTx = ⟨1, .inFlight⟩ ∧ sweeps 2 3 initialTx = ⟨3, .failed⟩ :=
  ⟨(retry_fails_exactly_after_max 2).1 1 (by decide),
    (retry_fails_exactly_after_max 2).2.2.1⟩

end Freenet
